import Mathlib

/-!
A shallow embedding of the "Humanizer" service, verified against its
specification.

Sources embedded:

* `src/api_external.py` — `call_hf_api`, `paraphrase_text`, `rewrite_text`,
  `detect_ai_text`, `is_ai_generated`.
* `src/Downloads/Humanizer-main/Humanizer-main/api/index.py` —
  `clean_final_text`, `HumanizerService.humanize_text`, and the POST
  `/humanize` branch of the serverless `handler`.

Modelling conventions:

* Python strings are Lean `String`s (sequences of Unicode scalar values);
  `len` is `String.length`; `str.strip()` is `pyStrip`, a structurally
  recursive model of stripping leading and trailing whitespace.
* The one outbound HTTP call a wrapper makes is an oracle value of type
  `NetOutcome`: either the parsed JSON the remote endpoint would yield, or
  the message of the exception `requests.post` / `raise_for_status` /
  `.json()` would raise.  Each wrapper performs at most one call, so a
  single oracle value per call site is a faithful parameterisation.
* Python floats in the detector are embedded as rationals (`Rat`); the
  arithmetic performed (`1 - x`, `abs`, `* 2`, comparisons) is exact on the
  values involved, so the embedding is faithful up to rounding that the
  claims do not mention.
* A JSON value a remote model returns is `HFJson`: a list of items or a
  non-list; an item is either an object carrying the optional fields the
  code reads (`generated_text`, `label`, `score`) or a non-object.  A
  non-object item carries the message of the `AttributeError` that calling
  `.get` on it would raise; a numeric JSON field is a rational.
* Exceptions escaping a Python callee are the `.exn` constructor of
  `PyResult`; a `try/except` in the caller is a `match` on it.
-/

/-- The `parameters` dict the wrappers send: `{max_length, min_length}`. -/
structure Params where
  max_length : Nat
  min_length : Nat
deriving DecidableEq, Repr

/-- One element of a parsed JSON list returned by the inference endpoint.
`obj` carries the optional fields the code reads; `nonObj msg` is any
non-dict value, where `msg` is the message of the `AttributeError` that
`item.get(...)` would raise on it. -/
inductive HFItem where
  | obj (generated_text : Option String) (label : Option String) (score : Option Rat)
  | nonObj (msg : String)
deriving DecidableEq, Repr

/-- A parsed JSON response body: a list (what the code hopes for) or any
non-list JSON value. -/
inductive HFJson where
  | list (items : List HFItem)
  | nonList
deriving DecidableEq, Repr

/-- The outcome of the single outbound HTTP call a wrapper makes: the
parsed response, or the message of the exception the transport layer /
`raise_for_status` raised. -/
inductive NetOutcome where
  | ok (js : HFJson)
  | raise (msg : String)
deriving DecidableEq, Repr

/-- The result of calling a Python function: a value, or an escaping
exception carrying its message. -/
inductive PyResult (α : Type) where
  | ok (v : α)
  | exn (msg : String)
deriving DecidableEq, Repr

/-- Python's built-in `abs` on a (here: rational) number. -/
def pyAbs (q : Rat) : Rat := if q < 0 then -q else q

/-- Python's `str.strip()` with no argument: remove leading and trailing
whitespace.  (Python's whitespace set on ASCII text is the usual space,
tab, newline, carriage-return characters covered by `Char.isWhitespace`.) -/
def pyStrip (s : String) : String :=
  (((s.toList.dropWhile Char.isWhitespace).reverse.dropWhile
      Char.isWhitespace).reverse).asString

/-- `api_external.call_hf_api`: raises (here: returns `.error`) with the
fixed message when the token is empty, *before* the network oracle is
consulted; otherwise performs the one network call and returns its parsed
JSON, re-raising any transport/HTTP error.  The `model_id`, `inputs` and
`parameters` arguments are what the code would put on the wire; the
response is the oracle `net`. -/
def call_hf_api (token : String) (model_id : String) (inputs : String)
    (parameters : Option Params) (net : NetOutcome) : Except String HFJson :=
  if token = "" then
    Except.error "HF_API_TOKEN environment variable not set"
  else
    -- the request is `{inputs, parameters or {}}` sent to `model_id`;
    -- its outcome is the oracle
    let _ := model_id
    let _ := inputs
    let _ := parameters
    match net with
    | NetOutcome.ok js => Except.ok js
    | NetOutcome.raise msg => Except.error msg

/-- `api_external.paraphrase_text`: returns `(paraphrased, "")` on success
and `(text, reason)` on any failure.  On a non-empty list response the code
runs `result[0].get('generated_text', text)`, so a first element that is an
object *lacking* the field yields `(text, "")` — a success — while a
non-list or empty-list response yields the "unexpected format" reason, and
any exception (missing token, transport error, `.get` on a non-dict) is
caught and its message returned as the reason. -/
def paraphrase_text (token : String) (net : NetOutcome) (text : String)
    (model_name : Option String) : String × String :=
  let model := model_name.getD "humarin/chatgpt_paraphraser_on_T5_base"
  let formatted_input := "paraphrase: " ++ text
  match call_hf_api token model formatted_input
      (some ⟨text.length * 2, text.length / 2⟩) net with
  | Except.error e => (text, e)
  | Except.ok (HFJson.list (HFItem.obj gt _ _ :: _)) => (gt.getD text, "")
  | Except.ok (HFJson.list (HFItem.nonObj m :: _)) => (text, m)
  | Except.ok (HFJson.list []) => (text, "API returned unexpected format")
  | Except.ok HFJson.nonList => (text, "API returned unexpected format")

/-- `api_external.rewrite_text`: same shape as `paraphrase_text`, with the
fixed model `"google/flan-t5-base"`, one of two prompt templates selected
by `enhanced`, and length parameters `3*len` / `len`. -/
def rewrite_text (token : String) (net : NetOutcome) (text : String)
    (enhanced : Bool) : String × String :=
  let prompt :=
    if enhanced then
      "Significantly rewrite and humanize this text to make it appear completely human-written: "
        ++ text
    else
      "Rewrite this text to make it more human-like and natural: " ++ text
  match call_hf_api token "google/flan-t5-base" prompt
      (some ⟨text.length * 3, text.length⟩) net with
  | Except.error e => (text, e)
  | Except.ok (HFJson.list (HFItem.obj gt _ _ :: _)) => (gt.getD text, "")
  | Except.ok (HFJson.list (HFItem.nonObj m :: _)) => (text, m)
  | Except.ok (HFJson.list []) => (text, "API returned unexpected format")
  | Except.ok HFJson.nonList => (text, "API returned unexpected format")

/-- The dict `api_external.detect_ai_text` returns.  `error` is `some`
exactly on the exception path, which adds the `'error'` key. -/
structure DetectionResult where
  ensemble_ai_probability : Rat
  ensemble_human_probability : Rat
  prediction : String
  confidence : Rat
  models_used : List String
  error : Option String
deriving DecidableEq, Repr

/-- `api_external.detect_ai_text`.  One detector model,
`"roberta-base-openai-detector"`.  On a non-empty list response whose first
element is a dict: `ai_score` is the reported `score` if `label == 'AI'`,
else `1 - score` (score defaulting to `0.5` when absent); a non-dict first
element is scored `0.5` with the model still listed.  A non-list or empty
response yields the `'Uncertain'` neutral dict; any exception yields the
`'Detection failed'` neutral dict with the `error` key set. -/
def detect_ai_text (token : String) (net : NetOutcome) (text : String) :
    DetectionResult :=
  match call_hf_api token "roberta-base-openai-detector" text none net with
  | Except.error e =>
      ⟨1/2, 1/2, "Detection failed", 0, [], some e⟩
  | Except.ok (HFJson.list (HFItem.obj _ label score :: _)) =>
      let ai_score :=
        if label = some "AI" then score.getD (1/2) else 1 - score.getD (1/2)
      ⟨ai_score, 1 - ai_score,
        if ai_score > 1/2 then "AI-generated" else "Human-written",
        pyAbs (ai_score - 1/2) * 2,
        ["roberta-base-openai-detector"], none⟩
  | Except.ok (HFJson.list (HFItem.nonObj _ :: _)) =>
      ⟨1/2, 1/2, "Human-written", 0, ["roberta-base-openai-detector"], none⟩
  | Except.ok (HFJson.list []) =>
      ⟨1/2, 1/2, "Uncertain", 0, [], none⟩
  | Except.ok HFJson.nonList =>
      ⟨1/2, 1/2, "Uncertain", 0, [], none⟩

/-- `api_external.is_ai_generated`: thresholds the ensemble probability. -/
def is_ai_generated (token : String) (net : NetOutcome) (text : String)
    (threshold : Rat) : Bool × Rat :=
  let result := detect_ai_text token net text
  (result.ensemble_ai_probability > threshold, result.confidence)

/-- Step 1 of `clean_final_text`: Python's
`text.replace("—", ", ")` — the pattern is a single character, so the
replacement is a character-wise expansion. -/
def replaceEmDash : List Char → List Char
  | [] => []
  | c :: cs =>
      if c = '—' then ',' :: ' ' :: replaceEmDash cs
      else c :: replaceEmDash cs

/-- Step 2 of `clean_final_text`: Python's
`re.sub(r' +([,.])', r'\1', text)`.  The substitution deletes exactly
those spaces that stand in a run immediately preceding a comma or a
period; processing from the right, a space is deleted iff the already
processed suffix begins with `,` or `.`. -/
def stripSpacesBeforePunct : List Char → List Char
  | [] => []
  | c :: cs =>
      let r := stripSpacesBeforePunct cs
      if c = ' ' ∧ (r.head? = some ',' ∨ r.head? = some '.') then r
      else c :: r

/-- `api/index.py` `clean_final_text`: the empty string is returned as is
(the `if not text` guard); otherwise em-dashes are replaced by `", "` and
then spaces before `,`/`.` are removed. -/
def clean_final_text (text : String) : String :=
  if text = "" then text
  else (stripSpacesBeforePunct (replaceEmDash text.toList)).asString

example : clean_final_text "a  ,b ." = "a,b." := by decide
example : clean_final_text "x—y" = "x, y" := by decide

/-- The statistics dict `HumanizerService.humanize_text` accumulates
before its completion keys are added. -/
structure Stats where
  original_length : Nat
  paraphrasing_used : Bool
  enhanced_rewriting_used : Bool
  model_used : Option String
  processing_steps : List String
deriving DecidableEq, Repr

/-- The statistics value `humanize_text` returns.  `unavailable` is the
`{"error": "Required modules not available", "success": False}` dict of
the import-failure guard; `completed` adds the `final_length` and
`length_change` keys of a normal run; `errored` is the `except` branch's
`{**stats, "error": msg}` with `"error"` appended to the steps (already
appended inside the `Stats` it carries). -/
inductive HumanizeStats where
  | unavailable
  | completed (stats : Stats) (final_length : Nat) (length_change : Int)
  | errored (stats : Stats) (error : String)
deriving DecidableEq, Repr

/-- The `except` branch of `humanize_text`: the statistics accumulated so
far, with the `"error"` step marker appended and the `error` key set. -/
def mkPipelineError (s : Stats) (e : String) : HumanizeStats :=
  HumanizeStats.errored
    { s with processing_steps := s.processing_steps ++ ["error"] } e

/-- The post-adoption trim of line 92–93 of `api/index.py`: a paraphrase
result beginning with the literal `": "` loses exactly that two-character
artifact. -/
def stripLeadingColonSpace (s : String) : String :=
  if s.startsWith ": " then s.drop 2 else s

/-- Step 1 of `humanize_text` (lines 81–96 of `api/index.py`): the
paraphrasing phase.  Returns either the working text and statistics the
rest of the pipeline proceeds with (`Sum.inl`) or the statistics
accumulated at, plus the message of, an escaping exception (`Sum.inr`).
The Python success test is `if not err and paraphrased and
paraphrased.strip()`; on success, `paraphrasing_used` is set *before*
`get_current_model()` runs, so an exception there escapes with that flag
already true and no step recorded. -/
def humanizeStep1
    (paraphraseStep : String → Option String → PyResult (String × String))
    (getCurrentModel : PyResult (Option String))
    (text : String) (use_paraphrasing : Bool) (stats0 : Stats)
    (paraphrase_model : Option String) : (String × Stats) ⊕ (Stats × String) :=
  if use_paraphrasing then
    match paraphraseStep text paraphrase_model with
    | PyResult.exn e => Sum.inr (stats0, e)
    | PyResult.ok (paraphrased, err) =>
        if err = "" ∧ paraphrased ≠ "" ∧ pyStrip paraphrased ≠ "" then
          let statsA := { stats0 with paraphrasing_used := true }
          match getCurrentModel with
          | PyResult.exn e => Sum.inr (statsA, e)
          | PyResult.ok m =>
              Sum.inl (stripLeadingColonSpace paraphrased,
                { statsA with
                  model_used := m,
                  processing_steps :=
                    statsA.processing_steps ++ ["paraphrasing"] })
        else
          Sum.inl (text, { stats0 with
            processing_steps :=
              stats0.processing_steps ++ ["paraphrasing_failed"] })
  else Sum.inl (text, stats0)

/-- Steps 2 and 3 of `humanize_text` (lines 99–117 of `api/index.py`):
rewriting with soft failure, then the unconditional cleaning and the
completion keys.  `text` is the pipeline's original input, returned when
the rewrite call raises. -/
def humanizeStep23
    (rewriteStep : String → Bool → PyResult (String × String))
    (text current_text : String) (use_enhanced_rewriting : Bool)
    (stats1 : Stats) : String × HumanizeStats :=
  match rewriteStep current_text use_enhanced_rewriting with
  | PyResult.exn e => (text, mkPipelineError stats1 e)
  | PyResult.ok (rewritten, err) =>
      let (final0, stats2) :=
        if err ≠ "" then
          (current_text, { stats1 with
            processing_steps :=
              stats1.processing_steps ++ ["rewriting_failed"] })
        else
          (rewritten, { stats1 with
            processing_steps :=
              stats1.processing_steps ++ ["rewriting"] })
      let final_text := clean_final_text final0
      let stats3 := { stats2 with
        processing_steps := stats2.processing_steps ++ ["text_cleaning"] }
      (final_text,
        HumanizeStats.completed stats3 final_text.length
          ((final_text.length : Int) - (stats3.original_length : Int)))

/-- `HumanizerService.humanize_text` from `api/index.py`.  The three
collaborators it calls — `paraphrase_text`, `get_current_model` and
`rewrite_text` from the `paraphraser`/`rewriter` modules — are passed as
oracles returning either a value or an escaping exception (`PyResult`);
the body's `try/except` catches any such exception via the `Sum.inr` /
`PyResult.exn` branches, turning it into the original text plus
error-annotated statistics. -/
def humanize_text
    (importsAvailable : Bool)
    (paraphraseStep : String → Option String → PyResult (String × String))
    (getCurrentModel : PyResult (Option String))
    (rewriteStep : String → Bool → PyResult (String × String))
    (text : String) (use_paraphrasing : Bool)
    (use_enhanced_rewriting : Bool) (paraphrase_model : Option String) :
    String × HumanizeStats :=
  if importsAvailable = false then (text, HumanizeStats.unavailable)
  else
    let stats0 : Stats :=
      ⟨text.length, false, use_enhanced_rewriting, none, []⟩
    match humanizeStep1 paraphraseStep getCurrentModel text use_paraphrasing
        stats0 paraphrase_model with
    | Sum.inr (s, e) => (text, mkPipelineError s e)
    | Sum.inl (current_text, stats1) =>
        humanizeStep23 rewriteStep text current_text use_enhanced_rewriting
          stats1

/-- The fields of a parsed `/humanize` request body that the handler
reads.  A missing key is `none`. -/
structure RequestBody where
  text : Option String
  paraphrasing : Option Bool
  enhanced : Option Bool
  model : Option String
deriving DecidableEq, Repr

/-- The raw `event['body']` as the handler's parse step sees it:
absent/empty (falsy), a string that `json.loads` rejects, or a
successfully obtained JSON object.  In the first two cases the code sets
`body = {}`. -/
inductive RawBody where
  | absent
  | invalidJson
  | valid (b : RequestBody)
deriving DecidableEq, Repr

/-- Lines 154–164 of `api/index.py`: absent/falsy bodies and bodies that
fail to parse both become the empty object. -/
def parseBody : RawBody → RequestBody
  | RawBody.absent => ⟨none, none, none, none⟩
  | RawBody.invalidJson => ⟨none, none, none, none⟩
  | RawBody.valid b => b

/-- The response bodies the `/humanize` branch can produce. -/
inductive ResponseBody where
  | errorMsg (msg : String)
  | errorUnavailable
  | humanizeOk (humanized_text : String) (statistics : HumanizeStats)
deriving DecidableEq, Repr

/-- An HTTP response of the handler (headers are the fixed CORS set and
are not modelled). -/
structure HttpResponse where
  statusCode : Nat
  body : ResponseBody
deriving DecidableEq, Repr

/-- The POST `/humanize` branch of `handler` (lines 256–321 of
`api/index.py`), including the body-parse step that precedes routing.
Validation order: imports guard, `"text" in body`, emptiness after
`.strip()`, minimum 10, maximum 50000; then the pipeline runs on the
stripped text and the branch always answers 200, substituting the input
text when the pipeline's output is empty or whitespace-only. -/
def handlerHumanize
    (importsAvailable : Bool)
    (paraphraseStep : String → Option String → PyResult (String × String))
    (getCurrentModel : PyResult (Option String))
    (rewriteStep : String → Bool → PyResult (String × String))
    (raw : RawBody) : HttpResponse :=
  if importsAvailable = false then ⟨500, ResponseBody.errorUnavailable⟩
  else
    let body := parseBody raw
    match body.text with
    | none => ⟨400, ResponseBody.errorMsg "Text field is required"⟩
    | some t0 =>
        let text := pyStrip t0
        if text = "" then
          ⟨400, ResponseBody.errorMsg "Text cannot be empty"⟩
        else if text.length < 10 then
          ⟨400, ResponseBody.errorMsg "Text must be at least 10 characters long"⟩
        else if text.length > 50000 then
          ⟨400, ResponseBody.errorMsg "Text must be less than 50000 characters"⟩
        else
          let use_paraphrasing := body.paraphrasing.getD true
          let use_enhanced := body.enhanced.getD true
          let result := humanize_text importsAvailable paraphraseStep
            getCurrentModel rewriteStep text use_paraphrasing use_enhanced
            body.model
          let humanized :=
            if result.1 = "" ∨ pyStrip result.1 = "" then text else result.1
          ⟨200, ResponseBody.humanizeOk humanized result.2⟩

/-- The handler with the pipeline's collaborators wired to the
`api_external` implementations (the same-named functions the spec
describes as steps 4.3/4.4), each remote call receiving its own network
oracle.  `api_external.paraphrase_text` and `rewrite_text` never raise
(their bodies are wrapped in catch-all `try/except`), hence `PyResult.ok`.
`get_current_model` lives in a module not present in the repository and
stays an oracle. -/
def handlerWithApiExternal (token : String) (netP netR : NetOutcome)
    (getCurrentModel : PyResult (Option String)) (raw : RawBody) :
    HttpResponse :=
  handlerHumanize true
    (fun t m => PyResult.ok (paraphrase_text token netP t m))
    getCurrentModel
    (fun t e => PyResult.ok (rewrite_text token netR t e))
    raw

/-! ## Properties of the text normalizer -/

lemma emDash_not_mem_replaceEmDash (l : List Char) :
    '—' ∉ replaceEmDash l := by
  induction l with
  | nil => simp [replaceEmDash]
  | cons c cs ih =>
      by_cases hc : c = '—'
      · simp [replaceEmDash, hc, ih]
      · simp [replaceEmDash, hc, ih]
        exact fun h => hc h.symm

lemma replaceEmDash_eq_self {l : List Char} (h : '—' ∉ l) :
    replaceEmDash l = l := by
  induction l with
  | nil => rfl
  | cons c cs ih =>
      have hc : ¬ c = '—' := fun hc => h (hc ▸ List.mem_cons_self c cs)
      have hcs : '—' ∉ cs := fun hm => h (List.mem_cons_of_mem c hm)
      simp [replaceEmDash, hc, ih hcs]

lemma mem_of_mem_stripSpacesBeforePunct {a : Char} :
    ∀ {l : List Char}, a ∈ stripSpacesBeforePunct l → a ∈ l := by
  intro l
  induction l with
  | nil => simp [stripSpacesBeforePunct]
  | cons c cs ih =>
      intro h
      rw [stripSpacesBeforePunct] at h
      split at h
      · exact List.mem_cons_of_mem c (ih h)
      · rcases List.mem_cons.mp h with h | h
        · exact h ▸ List.mem_cons_self c cs
        · exact List.mem_cons_of_mem c (ih h)

lemma stripSpacesBeforePunct_idem (l : List Char) :
    stripSpacesBeforePunct (stripSpacesBeforePunct l)
      = stripSpacesBeforePunct l := by
  induction l with
  | nil => rfl
  | cons c cs ih =>
      rw [stripSpacesBeforePunct]
      split
      · exact ih
      · rename_i hcond
        rw [stripSpacesBeforePunct, ih]
        simp only [if_neg hcond]

/-- C8 — Idempotence of the text normalizer: `clean_final_text`
first replaces every em-dash with comma+space and then removes every run
of spaces immediately preceding a comma or period; applying it twice
yields the same string as applying it once, for every input string. -/
theorem clean_final_text_idempotent (s : String) :
    clean_final_text (clean_final_text s) = clean_final_text s := by
  by_cases hs : s = ""
  · simp [clean_final_text, hs]
  · have hcs : clean_final_text s
        = (stripSpacesBeforePunct (replaceEmDash s.toList)).asString := by
      rw [clean_final_text, if_neg hs]
    rw [clean_final_text]
    by_cases h2 : clean_final_text s = ""
    · rw [if_pos h2]
    · rw [if_neg h2, hcs]
      have htl :
          ((stripSpacesBeforePunct (replaceEmDash s.toList)).asString).toList
            = stripSpacesBeforePunct (replaceEmDash s.toList) := rfl
      have hnd : '—' ∉ stripSpacesBeforePunct (replaceEmDash s.toList) :=
        fun hm =>
          emDash_not_mem_replaceEmDash s.toList
            (mem_of_mem_stripSpacesBeforePunct hm)
      rw [htl, replaceEmDash_eq_self hnd, stripSpacesBeforePunct_idem]

/-- C9 counterexample — the code does *not* collapse the double space
before `odd` (it only deletes spaces that precede a comma or period), so
the claimed exact output with a single space is not what
`clean_final_text` produces on the claimed input. -/
theorem clean_final_text_example_ne_claimed :
    ¬ clean_final_text "—well, that's  odd ." = ", well, that's odd." := by
  decide

/-- C9 (amended) — the exact output on the claimed input: the em-dash
becomes comma+space and the space before the final period is removed, but
the double space before `odd` is preserved (no other characters are
altered). -/
theorem clean_final_text_example :
    clean_final_text "—well, that's  odd ." = ", well, that's  odd." := by
  decide

/-! ## Properties of the detection aggregator -/

/-- The detector model "responded usably": the call was actually made
(token present, no transport exception) and delivered a non-empty list
whose first element is an object the code can read a score out of. -/
def respondedUsably (token : String) (net : NetOutcome) : Prop :=
  token ≠ "" ∧ ∃ gt label score rest,
    net = NetOutcome.ok (HFJson.list (HFItem.obj gt label score :: rest))

/-- The detector model "responded" at all in the sense the code uses for
inclusion in `models_used`: the call was made and delivered a parsed list
with at least one element (of any shape). -/
def respondedList (token : String) (net : NetOutcome) : Prop :=
  token ≠ "" ∧ ∃ item rest,
    net = NetOutcome.ok (HFJson.list (item :: rest))

/-- Every score the response carries lies in `[0,1]` (vacuous for
responses carrying none). -/
def scoreBounded : NetOutcome → Prop
  | NetOutcome.ok (HFJson.list (HFItem.obj _ _ (some q) :: _)) =>
      0 ≤ q ∧ q ≤ 1
  | _ => True

/-- C3 counterexample — the code computes
`confidence = abs(ai_score - 0.5) * 2` with *no* clamping: a remote
response reporting score `2` under label `AI` yields confidence `3`,
which differs from the value clamped to `[0,1]`. -/
theorem detect_confidence_not_clamped :
    let r := detect_ai_text "t"
      (NetOutcome.ok (HFJson.list [HFItem.obj none (some "AI") (some 2)])) "x"
    r.confidence = 3 ∧
      ¬ r.confidence
        = min 1 (max 0 (pyAbs (r.ensemble_ai_probability - 1/2) * 2)) := by
  have h : detect_ai_text "t"
      (NetOutcome.ok (HFJson.list [HFItem.obj none (some "AI") (some 2)])) "x"
      = ⟨2, -1, "AI-generated", 3, ["roberta-base-openai-detector"], none⟩ := by
    simp only [detect_ai_text, call_hf_api]
    rw [if_neg (by decide : ¬ ("t" : String) = "")]
    norm_num [pyAbs]
  simp only [h]
  norm_num [pyAbs]

/-- C3 (amended) — for every detection result:
`ensemble_ai_probability + ensemble_human_probability = 1` exactly and
`confidence = |ai − 0.5| × 2` with no clamping applied; when every score
the remote response carries lies in `[0,1]`, that unclamped value itself
lies in `[0,1]`, so the clamp would be a no-op. -/
theorem detect_sum_one_and_confidence
    (token : String) (net : NetOutcome) (text : String) :
    (detect_ai_text token net text).ensemble_ai_probability
        + (detect_ai_text token net text).ensemble_human_probability = 1
    ∧ (detect_ai_text token net text).confidence
        = pyAbs ((detect_ai_text token net text).ensemble_ai_probability - 1/2) * 2
    ∧ (scoreBounded net →
        0 ≤ (detect_ai_text token net text).confidence
          ∧ (detect_ai_text token net text).confidence ≤ 1) := by
  unfold detect_ai_text
  cases hc : call_hf_api token "roberta-base-openai-detector" text none net with
  | error e =>
      refine ⟨by norm_num, by norm_num [pyAbs], fun _ => by norm_num⟩
  | ok js =>
      have hb : scoreBounded net →
          (∀ gt label q rest,
            js = HFJson.list (HFItem.obj gt label (some q) :: rest) →
              0 ≤ q ∧ q ≤ 1) := by
        intro hs gt label q rest hjs
        unfold call_hf_api at hc
        by_cases ht : token = ""
        · simp [ht] at hc
        · simp only [if_neg ht] at hc
          cases net with
          | ok js' =>
              simp only at hc
              cases hc
              subst hjs
              exact hs
          | raise m => simp at hc
      clear hc
      cases js with
      | nonList =>
          refine ⟨by norm_num, by norm_num [pyAbs], fun _ => by norm_num⟩
      | list items =>
          cases items with
          | nil =>
              refine ⟨by norm_num, by norm_num [pyAbs], fun _ => by norm_num⟩
          | cons item rest =>
              cases item with
              | nonObj m =>
                  refine ⟨by norm_num, by norm_num [pyAbs], fun _ => by norm_num⟩
              | obj gt label score =>
                  simp only
                  refine ⟨by ring, trivial, ?_⟩
                  intro hs
                  have hsc : 0 ≤ score.getD (1/2) ∧ score.getD (1/2) ≤ 1 := by
                    cases score with
                    | none => norm_num
                    | some q => exact hb hs gt label q rest rfl
                  set ai : Rat := if label = some "AI" then score.getD (1/2)
                    else 1 - score.getD (1/2) with hai
                  have hai01 : 0 ≤ ai ∧ ai ≤ 1 := by
                    rw [hai]
                    by_cases hl : label = some "AI"
                    · rw [if_pos hl]
                      exact hsc
                    · rw [if_neg hl]
                      exact ⟨by linarith [hsc.2], by linarith [hsc.1]⟩
                  have h2 : pyAbs (ai - 1/2) ≤ 1/2 ∧ 0 ≤ pyAbs (ai - 1/2) := by
                    unfold pyAbs
                    by_cases hneg : ai - 1/2 < 0
                    · rw [if_pos hneg]
                      exact ⟨by linarith [hai01.1], by linarith⟩
                    · rw [if_neg hneg]
                      exact ⟨by linarith [hai01.2], by linarith [not_lt.mp hneg]⟩
                  exact ⟨by linarith [h2.2], by linarith [h2.1]⟩

lemma detect_ai_text_empty_token (net : NetOutcome) (text : String) :
    detect_ai_text "" net text
      = ⟨1/2, 1/2, "Detection failed", 0, [],
          some "HF_API_TOKEN environment variable not set"⟩ := rfl

lemma detect_ai_text_raise {token : String} (h : token ≠ "")
    (msg : String) (text : String) :
    detect_ai_text token (NetOutcome.raise msg) text
      = ⟨1/2, 1/2, "Detection failed", 0, [], some msg⟩ := by
  simp only [detect_ai_text, call_hf_api, if_neg h]

lemma detect_ai_text_nonList {token : String} (h : token ≠ "")
    (text : String) :
    detect_ai_text token (NetOutcome.ok HFJson.nonList) text
      = ⟨1/2, 1/2, "Uncertain", 0, [], none⟩ := by
  simp only [detect_ai_text, call_hf_api, if_neg h]

lemma detect_ai_text_nil {token : String} (h : token ≠ "") (text : String) :
    detect_ai_text token (NetOutcome.ok (HFJson.list [])) text
      = ⟨1/2, 1/2, "Uncertain", 0, [], none⟩ := by
  simp only [detect_ai_text, call_hf_api, if_neg h]

lemma detect_ai_text_nonObj {token : String} (h : token ≠ "")
    (m : String) (rest : List HFItem) (text : String) :
    detect_ai_text token
        (NetOutcome.ok (HFJson.list (HFItem.nonObj m :: rest))) text
      = ⟨1/2, 1/2, "Human-written", 0,
          ["roberta-base-openai-detector"], none⟩ := by
  simp only [detect_ai_text, call_hf_api, if_neg h]

/-- C4 counterexample — a response that is a non-empty list whose first
element is *not* an object is an unusable response, yet the code scores
it `0.5` (the "Default if format unknown" branch) and still lists the
model in `models_used`, instead of excluding it. -/
theorem detect_unusable_model_still_listed :
    ¬ respondedUsably "t" (NetOutcome.ok (HFJson.list [HFItem.nonObj "boom"]))
    ∧ detect_ai_text "t"
        (NetOutcome.ok (HFJson.list [HFItem.nonObj "boom"])) "x"
        = ⟨1/2, 1/2, "Human-written", 0,
            ["roberta-base-openai-detector"], none⟩
    ∧ ["roberta-base-openai-detector"] ≠ ([] : List String) := by
  refine ⟨?_, ?_, by decide⟩
  · rintro ⟨-, gt, label, score, rest, h⟩
    exact absurd h (by simp)
  · exact detect_ai_text_nonObj (by decide) "boom" [] "x"

/-- C4 (amended) — `models_used` is empty exactly when the call raised or
the response did not parse to a non-empty list; a model whose call raises
or whose response is not a non-empty list is thereby excluded entirely.
But a non-empty list whose first element is not an object is scored `0.5`
and the model *is* listed in `models_used`, so `models_used` records
"delivered a non-empty list", not "responded usably". -/
theorem detect_models_used_characterisation
    (token : String) (net : NetOutcome) (text : String) :
    ((detect_ai_text token net text).models_used = []
        ↔ ¬ respondedList token net)
    ∧ (∀ m rest, token ≠ "" →
        net = NetOutcome.ok (HFJson.list (HFItem.nonObj m :: rest)) →
        detect_ai_text token net text
          = ⟨1/2, 1/2, "Human-written", 0,
              ["roberta-base-openai-detector"], none⟩) := by
  constructor
  · by_cases ht : token = ""
    · subst ht
      simp [detect_ai_text_empty_token, respondedList]
    · cases net with
      | raise msg =>
          simp [detect_ai_text_raise ht, respondedList]
      | ok js =>
          cases js with
          | nonList => simp [detect_ai_text_nonList ht, respondedList]
          | list items =>
              cases items with
              | nil => simp [detect_ai_text_nil ht, respondedList]
              | cons item rest =>
                  have hr : respondedList token
                      (NetOutcome.ok (HFJson.list (item :: rest))) :=
                    ⟨ht, item, rest, rfl⟩
                  cases item with
                  | obj gt label score =>
                      simp only [detect_ai_text, call_hf_api, if_neg ht]
                      simp [hr]
                  | nonObj m =>
                      simp [detect_ai_text_nonObj ht, hr]
  · intro m rest ht hnet
    subst hnet
    exact detect_ai_text_nonObj ht m rest text

/-- C4 witness — instantiates the amended characterisation at a concrete
non-object response. -/
theorem detect_models_used_characterisation_witness :
    detect_ai_text "t" (NetOutcome.ok (HFJson.list [HFItem.nonObj "b"])) "x"
      = ⟨1/2, 1/2, "Human-written", 0,
          ["roberta-base-openai-detector"], none⟩ :=
  (detect_models_used_characterisation "t"
      (NetOutcome.ok (HFJson.list [HFItem.nonObj "b"])) "x").2
    "b" [] (by decide) rfl

/-- C5 — when no detector model responds with a parsed non-empty list
(the call raised — token missing or transport failure — or the JSON was
not a list or was empty), the aggregator returns the neutral fallback:
probabilities `0.5`/`0.5`, prediction `"Detection failed"` or
`"Uncertain"`, confidence `0`, and an empty `models_used`. -/
theorem detect_all_failed_neutral_fallback
    (token : String) (net : NetOutcome) (text : String)
    (h : ¬ respondedList token net) :
    (detect_ai_text token net text).ensemble_ai_probability = 1/2
    ∧ (detect_ai_text token net text).ensemble_human_probability = 1/2
    ∧ ((detect_ai_text token net text).prediction = "Detection failed"
        ∨ (detect_ai_text token net text).prediction = "Uncertain")
    ∧ (detect_ai_text token net text).confidence = 0
    ∧ (detect_ai_text token net text).models_used = [] := by
  by_cases ht : token = ""
  · subst ht
    simp [detect_ai_text_empty_token]
  · cases net with
    | raise msg => simp [detect_ai_text_raise ht]
    | ok js =>
        cases js with
        | nonList => simp [detect_ai_text_nonList ht]
        | list items =>
            cases items with
            | nil => simp [detect_ai_text_nil ht]
            | cons item rest => exact absurd ⟨ht, item, rest, rfl⟩ h

/-- C5 witness — a transport failure on a present token hits the
`"Detection failed"` neutral fallback. -/
theorem detect_all_failed_neutral_fallback_witness :
    (detect_ai_text "t" (NetOutcome.raise "503") "abc").prediction
        = "Detection failed"
      ∨ (detect_ai_text "t" (NetOutcome.raise "503") "abc").prediction
        = "Uncertain" :=
  (detect_all_failed_neutral_fallback "t" (NetOutcome.raise "503") "abc"
    (fun hr => by rcases hr with ⟨-, item, rest, heq⟩; cases heq)).2.2.1

/-- C3 witness — instantiates the amended confidence bound at a concrete
in-range score. -/
theorem detect_sum_one_and_confidence_witness :
    0 ≤ (detect_ai_text "t"
        (NetOutcome.ok (HFJson.list [HFItem.obj none (some "AI") (some (1/4))]))
        "x").confidence
    ∧ (detect_ai_text "t"
        (NetOutcome.ok (HFJson.list [HFItem.obj none (some "AI") (some (1/4))]))
        "x").confidence ≤ 1 :=
  (detect_sum_one_and_confidence "t"
      (NetOutcome.ok (HFJson.list [HFItem.obj none (some "AI") (some (1/4))]))
      "x").2.2
    (by constructor <;> norm_num)

/-! ## Properties of the paraphrase step -/

/-- C7 counterexample — when the transport succeeds and the parsed
response is a non-empty list whose first element *lacks* the
`generated_text` field, `result[0].get('generated_text', text)` silently
falls back to the input text and the step returns `(text, "")` — a
*success* with an empty reason — not a failure with the "unexpected
format" reason the claim requires. -/
theorem paraphrase_missing_field_is_success :
    paraphrase_text "t"
        (NetOutcome.ok (HFJson.list [HFItem.obj none none none]))
        "hello world" none
      = ("hello world", "")
    ∧ ("" : String) ≠ "API returned unexpected format" := by
  constructor
  · simp only [paraphrase_text, call_hf_api]
    rw [if_neg (by decide : ¬ ("t" : String) = "")]
    rfl
  · decide

/-- C7 (amended) — when the transport succeeds but the parsed response is
an empty list or not a list, the step fails with the literal reason
`"API returned unexpected format"`; when the response is a non-empty list
whose first element is an object lacking `generated_text`, the step
*succeeds*, returning the original input text with an empty reason; and
any failure of the remote client propagates through the step with its
reason string preserved verbatim. -/
theorem paraphrase_outcome_characterisation
    (token : String) (net : NetOutcome) (text : String)
    (m : Option String) :
    (token ≠ "" → net = NetOutcome.ok (HFJson.list []) →
        paraphrase_text token net text m
          = (text, "API returned unexpected format"))
    ∧ (token ≠ "" → net = NetOutcome.ok HFJson.nonList →
        paraphrase_text token net text m
          = (text, "API returned unexpected format"))
    ∧ (∀ label score rest, token ≠ "" →
        net = NetOutcome.ok (HFJson.list (HFItem.obj none label score :: rest)) →
        paraphrase_text token net text m = (text, ""))
    ∧ (∀ e, call_hf_api token (m.getD "humarin/chatgpt_paraphraser_on_T5_base")
          ("paraphrase: " ++ text)
          (some ⟨text.length * 2, text.length / 2⟩) net = Except.error e →
        paraphrase_text token net text m = (text, e)) := by
  refine ⟨?_, ?_, ?_, ?_⟩
  · intro ht hnet
    subst hnet
    simp only [paraphrase_text, call_hf_api, if_neg ht]
  · intro ht hnet
    subst hnet
    simp only [paraphrase_text, call_hf_api, if_neg ht]
  · intro label score rest ht hnet
    subst hnet
    simp only [paraphrase_text, call_hf_api, if_neg ht]
    rfl
  · intro e he
    simp only [paraphrase_text]
    rw [he]

/-- C7 witness — the missing-token configuration error propagates through
the paraphrase step with its message preserved. -/
theorem paraphrase_outcome_characterisation_witness :
    paraphrase_text "" (NetOutcome.ok (HFJson.list [])) "abc" none
      = ("abc", "HF_API_TOKEN environment variable not set") :=
  (paraphrase_outcome_characterisation ""
      (NetOutcome.ok (HFJson.list [])) "abc" none).2.2.2
    "HF_API_TOKEN environment variable not set" rfl

/-! ## Properties of the humanization pipeline -/

lemma humanizeStep1_no_para (pS : String → Option String → PyResult (String × String))
    (gcm : PyResult (Option String)) (text : String) (s0 : Stats)
    (pm : Option String) :
    humanizeStep1 pS gcm text false s0 pm = Sum.inl (text, s0) := rfl

lemma humanizeStep1_para_exn {pS : String → Option String → PyResult (String × String)}
    {text : String} {pm : Option String} {e : String}
    (gcm : PyResult (Option String)) (s0 : Stats)
    (h : pS text pm = PyResult.exn e) :
    humanizeStep1 pS gcm text true s0 pm = Sum.inr (s0, e) := by
  simp [humanizeStep1, h]

lemma humanizeStep1_para_fail {pS : String → Option String → PyResult (String × String)}
    {text : String} {pm : Option String} {p err : String}
    (gcm : PyResult (Option String)) (s0 : Stats)
    (h : pS text pm = PyResult.ok (p, err))
    (hfail : ¬ (err = "" ∧ p ≠ "" ∧ pyStrip p ≠ "")) :
    humanizeStep1 pS gcm text true s0 pm
      = Sum.inl (text, { s0 with
          processing_steps := s0.processing_steps ++ ["paraphrasing_failed"] }) := by
  simp only [humanizeStep1, h, if_true]
  rw [if_neg hfail]

lemma humanizeStep1_gcm_exn {pS : String → Option String → PyResult (String × String)}
    {gcm : PyResult (Option String)} {text : String} {pm : Option String}
    {p e : String} (s0 : Stats)
    (h : pS text pm = PyResult.ok (p, ""))
    (hp : pyStrip p ≠ "") (hg : gcm = PyResult.exn e) :
    humanizeStep1 pS gcm text true s0 pm
      = Sum.inr ({ s0 with paraphrasing_used := true }, e) := by
  have hp' : p ≠ "" := by
    intro hpe
    subst hpe
    exact hp (by decide)
  simp only [humanizeStep1, h, if_true]
  rw [if_pos ⟨trivial, hp', hp⟩, hg]

lemma humanizeStep1_para_success {pS : String → Option String → PyResult (String × String)}
    {gcm : PyResult (Option String)} {text : String} {pm : Option String}
    {p : String} {m : Option String} (s0 : Stats)
    (h : pS text pm = PyResult.ok (p, ""))
    (hp : pyStrip p ≠ "") (hg : gcm = PyResult.ok m) :
    humanizeStep1 pS gcm text true s0 pm
      = Sum.inl (stripLeadingColonSpace p,
          { s0 with
              paraphrasing_used := true,
              model_used := m,
              processing_steps := s0.processing_steps ++ ["paraphrasing"] }) := by
  have hp' : p ≠ "" := by
    intro hpe
    subst hpe
    exact hp (by decide)
  simp only [humanizeStep1, h, if_true]
  rw [if_pos ⟨trivial, hp', hp⟩, hg]

lemma humanizeStep23_exn {rS : String → Bool → PyResult (String × String)}
    {cur : String} {ue : Bool} {e : String} (text : String) (s1 : Stats)
    (h : rS cur ue = PyResult.exn e) :
    humanizeStep23 rS text cur ue s1 = (text, mkPipelineError s1 e) := by
  simp [humanizeStep23, h]

lemma humanizeStep23_rw_fail {rS : String → Bool → PyResult (String × String)}
    {cur : String} {ue : Bool} {r err : String} (text : String) (s1 : Stats)
    (h : rS cur ue = PyResult.ok (r, err)) (herr : err ≠ "") :
    humanizeStep23 rS text cur ue s1
      = (clean_final_text cur,
         HumanizeStats.completed
           { s1 with processing_steps :=
               (s1.processing_steps ++ ["rewriting_failed"]) ++ ["text_cleaning"] }
           (clean_final_text cur).length
           (((clean_final_text cur).length : Int)
             - (s1.original_length : Int))) := by
  simp only [humanizeStep23, h]
  rw [if_pos herr]

lemma humanizeStep23_rw_success {rS : String → Bool → PyResult (String × String)}
    {cur : String} {ue : Bool} {r : String} (text : String) (s1 : Stats)
    (h : rS cur ue = PyResult.ok (r, "")) :
    humanizeStep23 rS text cur ue s1
      = (clean_final_text r,
         HumanizeStats.completed
           { s1 with processing_steps :=
               (s1.processing_steps ++ ["rewriting"]) ++ ["text_cleaning"] }
           (clean_final_text r).length
           (((clean_final_text r).length : Int)
             - (s1.original_length : Int))) := by
  simp only [humanizeStep23, h]
  rw [if_neg (by simp : ¬ ("" : String) ≠ "")]

lemma humanize_text_eq (pS : String → Option String → PyResult (String × String))
    (gcm : PyResult (Option String))
    (rS : String → Bool → PyResult (String × String))
    (text : String) (up ue : Bool) (pm : Option String) :
    humanize_text true pS gcm rS text up ue pm
      = (match humanizeStep1 pS gcm text up
            ⟨text.length, false, ue, none, []⟩ pm with
         | Sum.inr (s, e) => (text, mkPipelineError s e)
         | Sum.inl (cur, s1) => humanizeStep23 rS text cur ue s1) := rfl

lemma humanizeStep1_inr_original_length
    {pS : String → Option String → PyResult (String × String)}
    {gcm : PyResult (Option String)} {text : String} {up : Bool}
    {s0 : Stats} {pm : Option String} {s' : Stats} {e' : String}
    (h : humanizeStep1 pS gcm text up s0 pm = Sum.inr (s', e')) :
    s'.original_length = s0.original_length := by
  unfold humanizeStep1 at h
  split at h
  · split at h
    · injection h with hpair
      injection hpair with h1 h2
      subst h1
      rfl
    · split at h
      · split at h
        · injection h with hpair
          injection hpair with h1 h2
          subst h1
          rfl
        · simp at h
      · simp at h
  · simp at h

lemma humanizeStep1_inl_original_length
    {pS : String → Option String → PyResult (String × String)}
    {gcm : PyResult (Option String)} {text : String} {up : Bool}
    {s0 : Stats} {pm : Option String} {cur : String} {s1 : Stats}
    (h : humanizeStep1 pS gcm text up s0 pm = Sum.inl (cur, s1)) :
    s1.original_length = s0.original_length := by
  unfold humanizeStep1 at h
  split at h
  · split at h
    · simp at h
    · split at h
      · split at h
        · simp at h
        · injection h with hpair
          injection hpair with h1 h2
          subst h2
          rfl
      · injection h with hpair
        injection hpair with h1 h2
        subst h2
        rfl
  · injection h with hpair
    injection hpair with h1 h2
    subst h2
    rfl

lemma humanizeStep23_errored
    {rS : String → Bool → PyResult (String × String)}
    {text cur : String} {ue : Bool} {s1 : Stats} {rtext : String}
    {s : Stats} {e : String}
    (h : humanizeStep23 rS text cur ue s1
        = (rtext, HumanizeStats.errored s e)) :
    rtext = text
      ∧ s = { s1 with
          processing_steps := s1.processing_steps ++ ["error"] } := by
  unfold humanizeStep23 at h
  split at h
  · injection h with h1 h2
    injection h2 with h3 h4
    exact ⟨h1.symm, h3.symm⟩
  · split at h
    all_goals
      injection h with h1 h2
      cases h2

/-- C1 — the humanize pipeline never fails: whenever the run ends in the
error-annotated form (the `except` branch, reachable only through an
escaping collaborator exception), the returned text is the *original*
input, the statistics are the ones accumulated up to the exception with
the `"error"` step marker appended last (shown exactly for an exception
in the paraphrase call, in `get_current_model` after a successful
paraphrase, and in the rewrite call), and the `/humanize` route answers
200 for every valid request regardless of the pipeline outcome. -/
theorem humanize_pipeline_error_resilience
    (pS : String → Option String → PyResult (String × String))
    (gcm : PyResult (Option String))
    (rS : String → Bool → PyResult (String × String))
    (text : String) (up ue : Bool) (pm : Option String) :
    (∀ rtext s e,
        humanize_text true pS gcm rS text up ue pm
          = (rtext, HumanizeStats.errored s e) →
        rtext = text
        ∧ s.processing_steps.getLast? = some "error"
        ∧ s.original_length = text.length)
    ∧ (∀ e, pS text pm = PyResult.exn e →
        humanize_text true pS gcm rS text true ue pm
          = (text, HumanizeStats.errored
              ⟨text.length, false, ue, none, ["error"]⟩ e))
    ∧ (∀ p e, pS text pm = PyResult.ok (p, "") → pyStrip p ≠ "" →
        gcm = PyResult.exn e →
        humanize_text true pS gcm rS text true ue pm
          = (text, HumanizeStats.errored
              ⟨text.length, true, ue, none, ["error"]⟩ e))
    ∧ (∀ e, rS text ue = PyResult.exn e →
        humanize_text true pS gcm rS text false ue pm
          = (text, HumanizeStats.errored
              ⟨text.length, false, ue, none, ["error"]⟩ e))
    ∧ (∀ b t0, b.text = some t0 → 10 ≤ (pyStrip t0).length →
        (pyStrip t0).length ≤ 50000 →
        (handlerHumanize true pS gcm rS (RawBody.valid b)).statusCode
          = 200) := by
  refine ⟨?_, ?_, ?_, ?_, ?_⟩
  · intro rtext s e h
    rw [humanize_text_eq] at h
    rcases h1 : humanizeStep1 pS gcm text up
        ⟨text.length, false, ue, none, []⟩ pm with ⟨cur, s1⟩ | ⟨s', e'⟩
    · rw [h1] at h
      dsimp only at h
      obtain ⟨hrt, hs⟩ := humanizeStep23_errored h
      refine ⟨hrt, ?_, ?_⟩
      · rw [hs]
        exact List.getLast?_concat _
      · rw [hs]
        exact humanizeStep1_inl_original_length h1
    · rw [h1] at h
      dsimp only at h
      injection h with hrt hst
      unfold mkPipelineError at hst
      injection hst with hs he
      refine ⟨hrt.symm, ?_, ?_⟩
      · rw [← hs]
        exact List.getLast?_concat _
      · rw [← hs]
        exact humanizeStep1_inr_original_length h1
  · intro e hps
    rw [humanize_text_eq,
      humanizeStep1_para_exn gcm ⟨text.length, false, ue, none, []⟩ hps]
    rfl
  · intro p e hok hp hg
    rw [humanize_text_eq,
      humanizeStep1_gcm_exn ⟨text.length, false, ue, none, []⟩ hok hp hg]
    rfl
  · intro e hrs
    rw [humanize_text_eq,
      humanizeStep1_no_para pS gcm text ⟨text.length, false, ue, none, []⟩ pm]
    dsimp only
    rw [humanizeStep23_exn text ⟨text.length, false, ue, none, []⟩ hrs]
    rfl
  · intro b t0 hb h10 h50
    have hne : pyStrip t0 ≠ "" := by
      intro he
      rw [he] at h10
      simp at h10
    dsimp only [handlerHumanize, parseBody]
    rw [hb]
    dsimp only
    rw [if_neg hne,
      if_neg (by omega : ¬ (pyStrip t0).length < 10),
      if_neg (by omega : ¬ (pyStrip t0).length > 50000)]
    rfl

/-- C1 witness — a paraphrase oracle that raises, at a concrete input. -/
theorem humanize_pipeline_error_resilience_witness :
    humanize_text true (fun _ _ => PyResult.exn "boom") (PyResult.ok none)
        (fun _ _ => PyResult.ok ("r", "")) "hello" true true none
      = ("hello",
         HumanizeStats.errored ⟨5, false, true, none, ["error"]⟩ "boom") :=
  (humanize_pipeline_error_resilience (fun _ _ => PyResult.exn "boom")
      (PyResult.ok none) (fun _ _ => PyResult.ok ("r", "")) "hello" true true
      none).2.1 "boom" rfl

lemma humanizeStep23_completed
    {rS : String → Bool → PyResult (String × String)}
    {text cur : String} {ue : Bool} {s1 : Stats} {rt : String}
    {st : Stats} {fl : Nat} {lc : Int}
    (h : humanizeStep23 rS text cur ue s1
        = (rt, HumanizeStats.completed st fl lc)) :
    st.processing_steps.getLast? = some "text_cleaning"
      ∧ ∃ pre, rt = clean_final_text pre := by
  unfold humanizeStep23 at h
  split at h
  · unfold mkPipelineError at h
    injection h with h1 h2
    cases h2
  · split at h
    all_goals
      injection h with h1 h2
      injection h2 with hst hfl hlc
      subst hst
      exact ⟨List.getLast?_concat _, ⟨_, h1.symm⟩⟩

/-- C2 — step failures are soft and ordered: when the paraphrase step
fails (non-empty error, or empty/whitespace-only output), the working
text stays the original, `"paraphrasing_failed"` is recorded and
`paraphrasing_used` stays false, whether the rewrite then succeeds or
fails; when the rewrite step fails after a successful paraphrase, the
final text is the cleaned *paraphrased* (pre-rewrite) text — not the
original input — with `"rewriting_failed"` recorded; and text cleaning is
applied unconditionally afterwards, `"text_cleaning"` being the last step
of every completed run and the returned text always being an output of
`clean_final_text`. -/
theorem humanize_soft_failures_ordered
    (pS : String → Option String → PyResult (String × String))
    (gcm : PyResult (Option String))
    (rS : String → Bool → PyResult (String × String))
    (text : String) (ue : Bool) (pm : Option String) :
    (∀ p err r, pS text pm = PyResult.ok (p, err) →
        ¬ (err = "" ∧ p ≠ "" ∧ pyStrip p ≠ "") →
        rS text ue = PyResult.ok (r, "") →
        humanize_text true pS gcm rS text true ue pm
          = (clean_final_text r,
             HumanizeStats.completed
               ⟨text.length, false, ue, none,
                 ["paraphrasing_failed", "rewriting", "text_cleaning"]⟩
               (clean_final_text r).length
               (((clean_final_text r).length : Int) - (text.length : Int))))
    ∧ (∀ p err r err2, pS text pm = PyResult.ok (p, err) →
        ¬ (err = "" ∧ p ≠ "" ∧ pyStrip p ≠ "") →
        rS text ue = PyResult.ok (r, err2) → err2 ≠ "" →
        humanize_text true pS gcm rS text true ue pm
          = (clean_final_text text,
             HumanizeStats.completed
               ⟨text.length, false, ue, none,
                 ["paraphrasing_failed", "rewriting_failed", "text_cleaning"]⟩
               (clean_final_text text).length
               (((clean_final_text text).length : Int) - (text.length : Int))))
    ∧ (∀ p m r err2, pS text pm = PyResult.ok (p, "") →
        pyStrip p ≠ "" → gcm = PyResult.ok m →
        rS (stripLeadingColonSpace p) ue = PyResult.ok (r, err2) →
        err2 ≠ "" →
        humanize_text true pS gcm rS text true ue pm
          = (clean_final_text (stripLeadingColonSpace p),
             HumanizeStats.completed
               ⟨text.length, true, ue, m,
                 ["paraphrasing", "rewriting_failed", "text_cleaning"]⟩
               (clean_final_text (stripLeadingColonSpace p)).length
               (((clean_final_text (stripLeadingColonSpace p)).length : Int)
                 - (text.length : Int))))
    ∧ (∀ up rt st fl lc,
        humanize_text true pS gcm rS text up ue pm
          = (rt, HumanizeStats.completed st fl lc) →
        st.processing_steps.getLast? = some "text_cleaning"
          ∧ ∃ pre, rt = clean_final_text pre) := by
  refine ⟨?_, ?_, ?_, ?_⟩
  · intro p err r hps hfail hrw
    rw [humanize_text_eq,
      humanizeStep1_para_fail gcm ⟨text.length, false, ue, none, []⟩ hps hfail]
    dsimp only
    rw [humanizeStep23_rw_success text _ hrw]
    rfl
  · intro p err r err2 hps hfail hrw herr2
    rw [humanize_text_eq,
      humanizeStep1_para_fail gcm ⟨text.length, false, ue, none, []⟩ hps hfail]
    dsimp only
    rw [humanizeStep23_rw_fail text _ hrw herr2]
    rfl
  · intro p m r err2 hok hp hg hrw herr2
    rw [humanize_text_eq,
      humanizeStep1_para_success ⟨text.length, false, ue, none, []⟩ hok hp hg]
    dsimp only
    rw [humanizeStep23_rw_fail text _ hrw herr2]
    rfl
  · intro up rt st fl lc h
    rw [humanize_text_eq] at h
    rcases h1 : humanizeStep1 pS gcm text up
        ⟨text.length, false, ue, none, []⟩ pm with ⟨cur, s1⟩ | ⟨s', e'⟩
    · rw [h1] at h
      dsimp only at h
      exact humanizeStep23_completed h
    · rw [h1] at h
      dsimp only at h
      unfold mkPipelineError at h
      injection h with h1' h2'
      cases h2'

/-- C2 witness — a successful paraphrase followed by a failing rewrite,
at concrete inputs: the pipeline returns the cleaned paraphrased text. -/
theorem humanize_soft_failures_ordered_witness :
    humanize_text true (fun _ _ => PyResult.ok ("PARA", ""))
        (PyResult.ok (some "model-x"))
        (fun _ _ => PyResult.ok ("junk", "bad")) "0123456789" true true none
      = (clean_final_text (stripLeadingColonSpace "PARA"),
         HumanizeStats.completed
           ⟨10, true, true, some "model-x",
             ["paraphrasing", "rewriting_failed", "text_cleaning"]⟩
           (clean_final_text (stripLeadingColonSpace "PARA")).length
           (((clean_final_text (stripLeadingColonSpace "PARA")).length : Int)
             - (10 : Int))) :=
  (humanize_soft_failures_ordered (fun _ _ => PyResult.ok ("PARA", ""))
      (PyResult.ok (some "model-x")) (fun _ _ => PyResult.ok ("junk", "bad"))
      "0123456789" true none).2.2.1 "PARA" (some "model-x") "junk" "bad"
    rfl (by decide) rfl rfl (by decide)

/-! ## Properties of the HTTP handler -/

/-- C6 counterexample — with the credential absent, a valid `/humanize`
request is answered 200 with the pipeline having taken the soft-failure
path (both steps recorded as failed, input text returned), not a
500-class error: the missing-token exception is caught inside
`paraphrase_text` / `rewrite_text` like any other failure. -/
theorem handler_missing_token_answers_200 :
    (handlerWithApiExternal "" (NetOutcome.raise "r1") (NetOutcome.raise "r2")
        (PyResult.ok none)
        (RawBody.valid ⟨some "0123456789abc", none, none, none⟩)).statusCode
      = 200
    ∧ (200 : Nat) < 500
    ∧ (handlerWithApiExternal "" (NetOutcome.raise "r1")
        (NetOutcome.raise "r2") (PyResult.ok none)
        (RawBody.valid ⟨some "0123456789abc", none, none, none⟩)).body
      = ResponseBody.humanizeOk "0123456789abc"
          (HumanizeStats.completed
            ⟨13, false, true, none,
              ["paraphrasing_failed", "rewriting_failed", "text_cleaning"]⟩
            13 0) := by
  refine ⟨by decide, by decide, by decide⟩

/-- C6 (amended) — with the credential absent, `call_hf_api` fails with
the configuration message before any network call (the result is the same
for every network oracle), but each wrapper catches that exception as an
ordinary soft failure — `paraphrase_text` and `rewrite_text` return the
input text with the message as reason, `detect_ai_text` returns the
`"Detection failed"` neutral result with the message attached — and the
`/humanize` route still answers 200 for every valid request. -/
theorem missing_token_soft_failure
    (netP netR net : NetOutcome) (gcm : PyResult (Option String))
    (mid inp : String) (par : Option Params) (t : String)
    (m : Option String) (e : Bool) (b : RequestBody) (t0 : String) :
    call_hf_api "" mid inp par net
      = Except.error "HF_API_TOKEN environment variable not set"
    ∧ paraphrase_text "" netP t m
      = (t, "HF_API_TOKEN environment variable not set")
    ∧ rewrite_text "" netR t e
      = (t, "HF_API_TOKEN environment variable not set")
    ∧ detect_ai_text "" net t
      = ⟨1/2, 1/2, "Detection failed", 0, [],
          some "HF_API_TOKEN environment variable not set"⟩
    ∧ (b.text = some t0 → 10 ≤ (pyStrip t0).length →
        (pyStrip t0).length ≤ 50000 →
        (handlerWithApiExternal "" netP netR gcm
            (RawBody.valid b)).statusCode = 200) := by
  refine ⟨rfl, rfl, ?_, detect_ai_text_empty_token net t, ?_⟩
  · cases e <;> rfl
  · intro hb h10 h50
    have hne : pyStrip t0 ≠ "" := by
      intro he
      rw [he] at h10
      simp at h10
    dsimp only [handlerWithApiExternal, handlerHumanize, parseBody]
    rw [hb]
    dsimp only
    rw [if_neg hne,
      if_neg (by omega : ¬ (pyStrip t0).length < 10),
      if_neg (by omega : ¬ (pyStrip t0).length > 50000)]
    rfl

/-- C6 witness — a concrete valid request with the credential absent. -/
theorem missing_token_soft_failure_witness :
    (handlerWithApiExternal "" (NetOutcome.raise "x") (NetOutcome.raise "y")
        (PyResult.ok none)
        (RawBody.valid ⟨some "abcdefghij", none, none, none⟩)).statusCode
      = 200 :=
  (missing_token_soft_failure (NetOutcome.raise "x") (NetOutcome.raise "y")
      (NetOutcome.raise "z") (PyResult.ok none) "mid" "inp" none "t" none
      true ⟨some "abcdefghij", none, none, none⟩ "abcdefghij").2.2.2.2
    rfl (by decide) (by decide)

/-- C10 — a POST `/humanize` whose body is absent or fails to parse as
JSON is treated as the empty object, so it is answered 400 with
`"Text field is required"` (never a 500 parse failure), whatever the
pipeline's collaborators would do. -/
theorem handler_invalid_body_answers_400
    (pS : String → Option String → PyResult (String × String))
    (gcm : PyResult (Option String))
    (rS : String → Bool → PyResult (String × String)) :
    handlerHumanize true pS gcm rS RawBody.absent
      = ⟨400, ResponseBody.errorMsg "Text field is required"⟩
    ∧ handlerHumanize true pS gcm rS RawBody.invalidJson
      = ⟨400, ResponseBody.errorMsg "Text field is required"⟩ :=
  ⟨rfl, rfl⟩
